import Mathlib

/-!
Verification development for the EZ-GEN app generator's build-pipeline
orchestrator (server.js).  The JavaScript source is shallowly embedded:
pure string manipulation is translated to Lean functions over `List Char`
and `String`, child-process interactions become explicit parameters (exit
codes as `Option Int`, with `none` standing for a signal-terminated child
whose `close` code is `null`), and the event-driven control flow of the
Capacitor sync engine becomes a step function over an explicit event list.
-/

namespace EZGen

/-! ## JavaScript string primitives

`firstMatch pat l` returns `some (before, after)` for the first (leftmost)
occurrence of the literal pattern `pat` in `l`, where `before` is the part
of `l` before the occurrence and `after` the part after it.  All patterns
used in the embedding are nonempty. -/

def firstMatch (pat : List Char) : List Char → Option (List Char × List Char)
  | [] => none
  | c :: rest =>
    if pat.isPrefixOf (c :: rest) then some ([], (c :: rest).drop pat.length)
    else
      match firstMatch pat rest with
      | some (pre, post) => some (c :: pre, post)
      | none => none

/-- Substring test, as JavaScript `String.prototype.includes`. -/
def containsStr (s pat : String) : Bool :=
  (firstMatch pat.data s.data).isSome

/-- JavaScript `str.replace(lit, repl)` with a string (not regex) first
argument: replace the first occurrence only. -/
def jsReplaceFirst (s pat repl : String) : String :=
  match firstMatch pat.data s.data with
  | none => s
  | some (pre, post) => .mk (pre ++ repl.data ++ post)

/-- Fuel-driven worker for `jsReplaceAll`; the fuel (length of the subject
plus one) dominates the number of nonempty-pattern matches, so the fuel
never runs out on the inputs the embedding uses. -/
def jsReplaceAllAux (pat repl : List Char) : Nat → List Char → List Char
  | 0, l => l
  | fuel + 1, l =>
    match firstMatch pat l with
    | none => l
    | some (pre, post) => pre ++ repl ++ jsReplaceAllAux pat repl fuel post

/-- JavaScript `str.replace(/lit/g, repl)` for a literal pattern: replace
every (non-overlapping, left-to-right) occurrence. -/
def jsReplaceAll (s pat repl : String) : String :=
  .mk (jsReplaceAllAux pat.data repl.data (s.data.length + 1) s.data)

/-- JavaScript `str.replace(/pre.*?post/, full)`: replace the first span
that starts with the literal `pre` and runs (shortest match) to the literal
`post` by `full`.  (The embedding ignores the `.`-does-not-match-newline
regex subtlety: every span this is applied to in the source sits on one
line.) -/
def jsReplaceSegment (s pre post full : String) : String :=
  match firstMatch pre.data s.data with
  | none => s
  | some (a, tail) =>
    match firstMatch post.data tail with
    | none => s
    | some (_, after) => .mk (a ++ full.data ++ after)

def jsStartsWith (s p : String) : Bool := p.data.isPrefixOf s.data

def strEndsWith (s p : String) : Bool := p.data.isSuffixOf s.data

/-- JavaScript `Array.prototype.slice(-n)` on lists: the last `n` elements
(the whole list when it is shorter than `n`). -/
def jsSliceLast (l : List α) (n : Nat) : List α := l.drop (l.length - n)

def isLowerAlpha (c : Char) : Bool := 'a' ≤ c && c ≤ 'z'

def isUpperAlpha (c : Char) : Bool := 'A' ≤ c && c ≤ 'Z'

def isAlphaChar (c : Char) : Bool := isLowerAlpha c || isUpperAlpha c

def isDigitChar (c : Char) : Bool := '0' ≤ c && c ≤ '9'

def isAlnumChar (c : Char) : Bool := isAlphaChar c || isDigitChar c

/-- The common members of the JavaScript regex class `\s` (the model keeps
the ASCII whitespace characters; the exotic Unicode spaces never appear in
the strings the pipeline handles). -/
def jsWhitespace : List Char := [' ', '\t', '\n', '\r', Char.ofNat 11, Char.ofNat 12]

def isJsSpace (c : Char) : Bool := jsWhitespace.contains c

/-- Single quote, double quote and backtick, the quote characters rejected
by `validateWebsiteUrl`. -/
def quoteChars : List Char := [Char.ofNat 39, Char.ofNat 34, Char.ofNat 96]

/-- JavaScript `appName.toLowerCase().replace(/[^a-z0-9]/g, '-')`, the
app-name sanitizer used for package.json names, artifact file names and
cache namespaces. -/
def jsSanitize (s : String) : String :=
  .mk (s.data.map (fun c =>
    let d := c.toLower
    if isLowerAlpha d || isDigitChar d then d else '-'))

/-! ## Validator (server.js `validateAppName` / `validateWebsiteUrl` /
`validatePackageName`) -/

structure ValidationResult where
  isValid : Bool
  message : Option String := none
  warning : Option String := none
deriving Repr, DecidableEq

def ValidationResult.invalid (msg : String) : ValidationResult :=
  { isValid := false, message := some msg }

/-- Embedding of `validateAppName`.  The `typeof`/falsiness guard of the
JavaScript source reduces, for string inputs, to an emptiness test. -/
def validateAppName (appName : String) : ValidationResult :=
  if appName = "" then
    .invalid "App name is required and must be a string"
  else if appName.length < 2 ∨ appName.length > 50 then
    .invalid "App name must be between 2 and 50 characters"
  else if ¬ (appName.data.all fun c =>
      isAlnumChar c || isJsSpace c || c = '-' || c = '_') then
    .invalid "App name can only contain letters, numbers, spaces, hyphens, and underscores"
  else
    { isValid := true }

/-- Hostname/protocol pair produced by the WHATWG `new URL(...)`
constructor; `protocol` keeps its trailing colon as in the browser API. -/
structure URLParts where
  protocol : String
  hostname : String
deriving Repr, DecidableEq

def isSchemeChar (c : Char) : Bool := isAlnumChar c || c = '+' || c = '-' || c = '.'

/-- Models the WHATWG URL constructor for the `scheme://host[:port][/...]`
shapes that reach the parse inside `validateWebsiteUrl` (everything else
there is screened off by the earlier checks); `none` models the constructor
throwing. -/
def urlParse (url : String) : Option URLParts :=
  match firstMatch "://".data url.data with
  | none => none
  | some (scheme, rest) =>
    if scheme = [] ∨ ¬ scheme.all isSchemeChar then none
    else
      let hostport := rest.takeWhile (fun c => !(c == '/' || c == '?' || c == '#'))
      let host := hostport.takeWhile (fun c => !(c == ':'))
      if host = [] then none
      else some { protocol := .mk (scheme.map Char.toLower) ++ ":",
                  hostname := .mk (host.map Char.toLower) }

/-- The anchored regex `/^https?:[^\/]/`: a scheme written without the
double slash. -/
def protocolSlashMalformed (url : String) : Bool :=
  match url.data with
  | 'h' :: 't' :: 't' :: 'p' :: rest =>
    match rest with
    | ':' :: c :: _ => c != '/'
    | 's' :: ':' :: c :: _ => c != '/'
    | _ => false
  | _ => false

/-- One label of the hostname regex
`[a-zA-Z0-9]([a-zA-Z0-9-]{0,61}[a-zA-Z0-9])?`. -/
def hostLabelOk (l : List Char) : Bool :=
  match l with
  | [] => false
  | [c] => isAlnumChar c
  | c :: rest =>
    isAlnumChar c
      && rest.dropLast.length ≤ 61
      && rest.dropLast.all (fun d => isAlnumChar d || d = '-')
      && isAlnumChar (rest.getLastD c)

def hostnameRegexOk (host : String) : Bool :=
  (host.data.splitOn '.').all hostLabelOk

/-- The top-level-domain check `/^[a-zA-Z]{2,}$/` applied to the last
dot-separated part of the hostname. -/
def tldOk (host : String) : Bool :=
  let tld := (host.data.splitOn '.').getLastD []
  2 ≤ tld.length && tld.all isAlphaChar

/-- Embedding of `validateWebsiteUrl`. -/
def validateWebsiteUrl (url : String) : ValidationResult :=
  if url = "" then
    .invalid "Website URL is required"
  else if url.data.any (fun c => quoteChars.contains c || isJsSpace c) then
    .invalid "Website URL contains invalid characters (quotes, spaces not allowed)"
  else if protocolSlashMalformed url then
    .invalid "Invalid URL format. Use https:// or http:// (e.g., https://example.com)"
  else
    match urlParse url with
    | none =>
      .invalid "Invalid URL format. Please enter a valid website URL (e.g., https://example.com)"
    | some u =>
      if ¬ (u.protocol = "http:" ∨ u.protocol = "https:") then
        .invalid "Website URL must use HTTP or HTTPS protocol"
      else if u.hostname = "" ∨ u.hostname.length < 3 then
        .invalid "Website URL must have a valid hostname"
      else if u.hostname = "localhost" ∨ u.hostname = "127.0.0.1" then
        { isValid := true,
          warning := some "Warning: Using localhost URL - this will only work for local testing" }
      else if ¬ u.hostname.data.contains '.' then
        .invalid "Website URL must have a valid domain with extension (e.g., example.com)"
      else if ¬ hostnameRegexOk u.hostname then
        .invalid "Website URL must have a valid domain name (e.g., example.com)"
      else if ¬ tldOk u.hostname then
        .invalid "Website URL must have a valid domain extension (e.g., .com, .org, .net)"
      else
        { isValid := true }

/-- One dot-separated segment of the package regex
`/^[a-z][a-z0-9_]*(\.[a-z][a-z0-9_]*)+$/`. -/
def segOk (seg : List Char) : Bool :=
  match seg with
  | [] => false
  | c :: rest => isLowerAlpha c && rest.all (fun d => isLowerAlpha d || isDigitChar d || d = '_')

/-- The full package regex: at least two dot-separated segments, each of
the segment shape. -/
def packageRegexMatches (s : String) : Bool :=
  let parts := s.data.splitOn '.'
  decide (2 ≤ parts.length) && parts.all segOk

def reservedStarts : List String := ["com.android", "com.google", "java", "javax"]

def reservedWords : List String := ["android", "java", "javax"]

def packageRegexMsg : String :=
  "Package name must follow Java package naming conventions:\n" ++
  "• Must start with a lowercase letter\n" ++
  "• Can contain lowercase letters, numbers, and underscores\n" ++
  "• Must have at least one dot (e.g., com.company.appname)\n" ++
  "• Each part must start with a letter\n" ++
  "Example: com.yourcompany.appname"

/-- Embedding of `validatePackageName`. -/
def validatePackageName (packageName : String) : ValidationResult :=
  if packageName = "" then
    .invalid "Package name is required"
  else if ¬ packageRegexMatches packageName then
    .invalid packageRegexMsg
  else if (packageName.data.splitOn '.').length < 3 then
    .invalid "Package name must have exactly 3 parts separated by dots (e.g., com.company.appname)"
  else if (packageName.data.splitOn '.').length > 5 then
    .invalid "Package name should not have more than 5 parts for simplicity"
  else
    match reservedStarts.find? (fun p => jsStartsWith packageName (p ++ ".") || packageName == p) with
    | some p => .invalid ("Package name cannot start with reserved prefix: " ++ p)
    | none =>
      match (packageName.data.splitOn '.').find? (fun part => reservedWords.contains (String.mk part)) with
      | some part => .invalid ("Package name cannot use reserved word: " ++ String.mk part)
      | none => { isValid := true }

/-- The package-identifier acceptance condition as the specification words
it: lowercase-start `[a-z0-9_]*` segments joined by dots, between 3 and 5
segments, not starting with (or equal to) a reserved prefix, and no segment
equal to a reserved word.  Stated independently of `validatePackageName`
so the two can be compared. -/
def packageNameSpecOk (s : String) : Bool :=
  (s.data.splitOn '.').all segOk
    && decide (3 ≤ (s.data.splitOn '.').length)
    && decide ((s.data.splitOn '.').length ≤ 5)
    && !(reservedStarts.any fun p => jsStartsWith s (p ++ ".") || s == p)
    && !((s.data.splitOn '.').any fun part => reservedWords.contains (String.mk part))

/-- The code's sequential checks compute exactly the specification's
conjunction. -/
theorem validatePackageName_eq_spec (s : String) :
    (validatePackageName s).isValid = packageNameSpecOk s := by
  by_cases hempty : s = ""
  · subst hempty; decide
  · unfold validatePackageName packageNameSpecOk
    rw [if_neg hempty]
    by_cases hre : packageRegexMatches s = true
    · rw [if_neg (not_not_intro hre)]
      unfold packageRegexMatches at hre
      simp only [Bool.and_eq_true, decide_eq_true_eq] at hre
      obtain ⟨hlen2, hall⟩ := hre
      by_cases hlen3 : (s.data.splitOn '.').length < 3
      · rw [if_pos hlen3, hall, decide_eq_false (by omega : ¬ (3 ≤ (s.data.splitOn '.').length))]
        simp only [Bool.true_and, Bool.false_and]
        rfl
      · rw [if_neg hlen3]
        by_cases hlen5 : (s.data.splitOn '.').length > 5
        · rw [if_pos hlen5, hall, decide_eq_false (by omega : ¬ ((s.data.splitOn '.').length ≤ 5))]
          simp only [Bool.true_and, Bool.false_and, Bool.and_false]
          rfl
        · rw [if_neg hlen5, hall, decide_eq_true (by omega : 3 ≤ (s.data.splitOn '.').length),
            decide_eq_true (by omega : (s.data.splitOn '.').length ≤ 5)]
          cases hfind : reservedStarts.find? (fun p => jsStartsWith s (p ++ ".") || s == p) with
          | some q =>
            have hq := List.find?_some hfind
            have hany : (reservedStarts.any fun p => jsStartsWith s (p ++ ".") || s == p) = true :=
              List.any_eq_true.mpr ⟨q, List.mem_of_find?_eq_some hfind, hq⟩
            rw [hany]
            simp only [Bool.not_true, Bool.true_and, Bool.false_and, Bool.and_false]
            rfl
          | none =>
            have hany : (reservedStarts.any fun p => jsStartsWith s (p ++ ".") || s == p) = false := by
              rw [List.any_eq_false]
              intro x hx
              simpa using List.find?_eq_none.mp hfind x hx
            rw [hany]
            cases hfind2 : (s.data.splitOn '.').find? (fun part => reservedWords.contains (String.mk part)) with
            | some q =>
              have hq2 := List.find?_some hfind2
              have hany2 : ((s.data.splitOn '.').any fun part => reservedWords.contains (String.mk part)) = true :=
                List.any_eq_true.mpr ⟨q, List.mem_of_find?_eq_some hfind2, hq2⟩
              rw [hany2]
              simp only [Bool.not_true, Bool.not_false, Bool.true_and, Bool.and_false]
              rfl
            | none =>
              have hany2 : ((s.data.splitOn '.').any fun part => reservedWords.contains (String.mk part)) = false := by
                rw [List.any_eq_false]
                intro x hx
                simpa using List.find?_eq_none.mp hfind2 x hx
              rw [hany2]
              simp only [Bool.not_false, Bool.true_and, Bool.and_true]
    · rw [if_pos hre]
      unfold packageRegexMatches at hre
      simp only [Bool.and_eq_true, decide_eq_true_eq, not_and_or] at hre
      by_cases hall : ((s.data.splitOn '.').all segOk) = true
      · have h2 : ¬ (2 ≤ (s.data.splitOn '.').length) := by
          rcases hre with h | h
          · exact h
          · exact absurd hall h
        rw [hall, decide_eq_false (by omega : ¬ (3 ≤ (s.data.splitOn '.').length))]
        simp only [Bool.true_and, Bool.false_and]
        rfl
      · have : ((s.data.splitOn '.').all segOk) = false := by
          revert hall; cases (s.data.splitOn '.').all segOk <;> simp
        rw [this]
        simp only [Bool.false_and]
        rfl

/-- C5: `validatePackageName` accepts a package identifier if and only if
it matches lowercase-start `[a-z0-9_]*` segments joined by dots, has 3 to 5
segments, does not start with or equal a reserved prefix, and has no
reserved-word segment; in particular `com.android.test` is rejected. -/
theorem claim_C5_validatePackageName_iff_spec :
    (∀ s : String, (validatePackageName s).isValid = true ↔ packageNameSpecOk s = true) ∧
    (validatePackageName "com.android.test").isValid = false := by
  refine ⟨fun s => ?_, by decide⟩
  rw [validatePackageName_eq_spec]

/-- C6 counterexample: a `localhost` URL is NOT rejected by
`validateWebsiteUrl` — it is accepted (`isValid = true`, with a warning),
so the claim that each of the six listed inputs yields a rejection fails
on this input. -/
theorem claim_C6_counterexample :
    ¬ ((validateWebsiteUrl "http://localhost").isValid = false) := by decide

/-- C6 (amended): the five genuinely rule-violating inputs — empty app
name, 51-character app name, the URL `http:badurl`, a 2-segment package
identifier, a reserved-prefix package identifier — are each rejected with
the message naming the violated rule, while a `localhost` URL is accepted
with a warning naming localhost. -/
theorem claim_C6_amended_single_rule_rejections :
    (validateAppName "").isValid = false ∧
    (validateAppName "").message = some "App name is required and must be a string" ∧
    (validateAppName (String.mk (List.replicate 51 'a'))).isValid = false ∧
    (validateAppName (String.mk (List.replicate 51 'a'))).message =
      some "App name must be between 2 and 50 characters" ∧
    (validateWebsiteUrl "http:badurl").isValid = false ∧
    (validateWebsiteUrl "http:badurl").message =
      some "Invalid URL format. Use https:// or http:// (e.g., https://example.com)" ∧
    (validateWebsiteUrl "http://localhost").isValid = true ∧
    (validateWebsiteUrl "http://localhost").warning =
      some "Warning: Using localhost URL - this will only work for local testing" ∧
    (validatePackageName "com.company").isValid = false ∧
    (validatePackageName "com.company").message =
      some "Package name must have exactly 3 parts separated by dots (e.g., com.company.appname)" ∧
    (validatePackageName "com.android.test").isValid = false ∧
    (validatePackageName "com.android.test").message =
      some "Package name cannot start with reserved prefix: com.android" := by
  decide

/-! ## Progress Reporter (server.js `logToSession` and the
`activeSessions` map) -/

/-- One structured log event, as emitted over the socket channel.  The
source's `type` field ('info'/'success'/'warning'/'error') is kept under
the same name. -/
structure LogEntry where
  timestamp : String
  message : String
  type : String
  id : String
deriving Repr, DecidableEq

structure Session where
  logs : List LogEntry
  startTime : String
deriving Repr, DecidableEq

/-- The server's mutable state relevant to logging: the `activeSessions`
map (a JavaScript `Map`, modelled as an insertion-ordered association
list) and the cumulative list of `(room, entry)` socket emissions. -/
structure ServerState where
  activeSessions : List (String × Session)
  emitted : List (String × LogEntry)
deriving Repr, DecidableEq

def ServerState.init : ServerState := ⟨[], []⟩

def lookupSession : List (String × Session) → String → Option Session
  | [], _ => none
  | (k, v) :: rest, sid => if k = sid then some v else lookupSession rest sid

/-- `Map.set`: replace the entry under the key, appending at the end when
the key is absent. -/
def setSession : List (String × Session) → String → Session → List (String × Session)
  | [], sid, v => [(sid, v)]
  | (k, v0) :: rest, sid, v =>
    if k = sid then (k, v) :: rest else (k, v0) :: setSession rest sid v

/-- One invocation of `logToSession`: the session id, the message and
level passed by the caller together with the timestamp
(`new Date().toISOString()`) and uuid (`uuidv4()`) the environment
produced for this call. -/
structure LogCall where
  sessionId : String
  message : String
  type : String
  timestamp : String
  id : String
deriving Repr, DecidableEq

def LogCall.entry (c : LogCall) : LogEntry :=
  { timestamp := c.timestamp, message := c.message, type := c.type, id := c.id }

/-- Embedding of `logToSession`: ensure the session exists, push the
entry, keep only the last 1000 entries, and emit the entry to the
session's room. -/
def logToSession (st : ServerState) (c : LogCall) : ServerState :=
  let sessions0 :=
    if (lookupSession st.activeSessions c.sessionId).isSome then st.activeSessions
    else setSession st.activeSessions c.sessionId { logs := [], startTime := c.timestamp }
  let current := (lookupSession sessions0 c.sessionId).getD { logs := [], startTime := c.timestamp }
  let pushed := current.logs ++ [c.entry]
  let newLogs := if 1000 < pushed.length then jsSliceLast pushed 1000 else pushed
  { activeSessions := setSession sessions0 c.sessionId { current with logs := newLogs },
    emitted := st.emitted ++ [(c.sessionId, c.entry)] }

def runLog (st : ServerState) : List LogCall → ServerState
  | [] => st
  | c :: cs => runLog (logToSession st c) cs

/-- The stored log buffer of a session (empty when the session does not
exist). -/
def sessionLogs (st : ServerState) (sid : String) : List LogEntry :=
  ((lookupSession st.activeSessions sid).map Session.logs).getD []

/-- All entries ever appended for a session, in append order. -/
def historyFor (calls : List LogCall) (sid : String) : List LogEntry :=
  (calls.filter (fun c => c.sessionId = sid)).map LogCall.entry

theorem lookupSession_set_self (l : List (String × Session)) (sid : String) (v : Session) :
    lookupSession (setSession l sid v) sid = some v := by
  induction l with
  | nil => simp [setSession, lookupSession]
  | cons kv rest ih =>
    obtain ⟨k, v0⟩ := kv
    by_cases hk : k = sid
    · simp [setSession, lookupSession, hk]
    · simp [setSession, lookupSession, hk, ih]

theorem lookupSession_set_other (l : List (String × Session)) (sid sid' : String) (v : Session)
    (h : sid' ≠ sid) :
    lookupSession (setSession l sid v) sid' = lookupSession l sid' := by
  have hne : ¬ sid = sid' := fun hh => h hh.symm
  induction l with
  | nil => simp [setSession, lookupSession, hne]
  | cons kv rest ih =>
    obtain ⟨k, v0⟩ := kv
    by_cases hk : k = sid
    · subst hk
      simp [setSession, lookupSession, hne]
    · simp only [setSession, if_neg hk, lookupSession]
      by_cases hk' : k = sid'
      · simp [hk']
      · simp [hk', ih]

theorem sessionLogs_logToSession (st : ServerState) (c : LogCall) (sid : String) :
    sessionLogs (logToSession st c) sid =
      if c.sessionId = sid then
        (if 1000 < (sessionLogs st c.sessionId ++ [c.entry]).length
          then jsSliceLast (sessionLogs st c.sessionId ++ [c.entry]) 1000
          else sessionLogs st c.sessionId ++ [c.entry])
      else sessionLogs st sid := by
  have hcur :
      (lookupSession
        (if (lookupSession st.activeSessions c.sessionId).isSome then st.activeSessions
         else setSession st.activeSessions c.sessionId { logs := [], startTime := c.timestamp })
        c.sessionId).getD { logs := [], startTime := c.timestamp }
      = { logs := sessionLogs st c.sessionId,
          startTime := ((lookupSession st.activeSessions c.sessionId).getD
            { logs := [], startTime := c.timestamp }).startTime } := by
    cases hl : lookupSession st.activeSessions c.sessionId with
    | none => simp [hl, lookupSession_set_self, sessionLogs]
    | some sess => simp [hl, sessionLogs]
  by_cases hsid : c.sessionId = sid
  · subst hsid
    simp only [logToSession, sessionLogs, hcur, if_pos rfl, lookupSession_set_self]
    simp
  · rw [if_neg hsid]
    simp only [logToSession, sessionLogs]
    rw [lookupSession_set_other _ _ _ _ (fun hh => hsid hh.symm)]
    cases hl : lookupSession st.activeSessions c.sessionId with
    | none =>
      rw [if_neg (by simp [hl])]
      rw [lookupSession_set_other _ _ _ _ (fun hh => hsid hh.symm)]
    | some sess =>
      rw [if_pos (by simp [hl])]

theorem jsSliceLast_push (hist : List α) (e : α) :
    (if 1000 < (jsSliceLast hist 1000 ++ [e]).length
      then jsSliceLast (jsSliceLast hist 1000 ++ [e]) 1000
      else jsSliceLast hist 1000 ++ [e])
    = jsSliceLast (hist ++ [e]) 1000 := by
  have hone : ([e] : List α).length = 1 := rfl
  have hlen2 : (jsSliceLast hist 1000 ++ [e]).length = (hist.length - (hist.length - 1000)) + 1 := by
    rw [List.length_append, hone, jsSliceLast, List.length_drop]
  by_cases hh : hist.length < 1000
  · have hc : ¬ (1000 < (jsSliceLast hist 1000 ++ [e]).length) := by rw [hlen2]; omega
    rw [if_neg hc]
    unfold jsSliceLast
    have hz : (hist ++ [e]).length - 1000 = 0 := by rw [List.length_append, hone]; omega
    rw [(by omega : hist.length - 1000 = 0), hz]
    simp
  · have hc : 1000 < (jsSliceLast hist 1000 ++ [e]).length := by rw [hlen2]; omega
    rw [if_pos hc]
    unfold jsSliceLast
    have h1000 : 1000 ≤ hist.length := by omega
    have e1 : (hist.drop (hist.length - 1000) ++ [e]).length - 1000 = 1 := by
      rw [List.length_append, List.length_drop, hone]; omega
    have e2 : (hist ++ [e]).length - 1000 = (hist.length - 1000) + 1 := by
      rw [List.length_append, hone]; omega
    rw [e1, e2]
    rw [List.drop_append_of_le_length (by rw [List.length_drop]; omega),
      List.drop_append_of_le_length (by omega), List.drop_drop]

theorem runLog_invariant (calls : List LogCall) (st : ServerState) (sid : String)
    (H : List LogEntry) (hinv : sessionLogs st sid = jsSliceLast H 1000) :
    sessionLogs (runLog st calls) sid = jsSliceLast (H ++ historyFor calls sid) 1000 := by
  induction calls generalizing st H with
  | nil => simpa [runLog, historyFor]
  | cons c cs ih =>
    rw [runLog]
    by_cases hc : c.sessionId = sid
    · have hstep : sessionLogs (logToSession st c) sid = jsSliceLast (H ++ [c.entry]) 1000 := by
        rw [sessionLogs_logToSession, if_pos hc, hc, hinv, jsSliceLast_push]
      have := ih (logToSession st c) (H ++ [c.entry]) hstep
      rw [this, List.append_assoc]
      have : historyFor (c :: cs) sid = c.entry :: historyFor cs sid := by
        simp [historyFor, hc]
      rw [this]
      rfl
    · have hstep : sessionLogs (logToSession st c) sid = jsSliceLast H 1000 := by
        rw [sessionLogs_logToSession, if_neg hc, hinv]
      have := ih (logToSession st c) H hstep
      rw [this]
      have : historyFor (c :: cs) sid = historyFor cs sid := by
        simp [historyFor, hc]
      rw [this]

theorem runLog_emitted (calls : List LogCall) (st : ServerState) :
    (runLog st calls).emitted =
      st.emitted ++ calls.map (fun c => (c.sessionId, c.entry)) := by
  induction calls generalizing st with
  | nil => simp [runLog]
  | cons c cs ih =>
    rw [runLog, ih]
    simp [logToSession]

theorem jsSliceLast_concat_getLast (l : List α) (e : α) :
    (jsSliceLast (l ++ [e]) 1000).getLast? = some e := by
  unfold jsSliceLast
  rw [List.drop_append_of_le_length (by simp)]
  simp

/-- C8: after any sequence of `logToSession` calls, each session's buffer
is exactly the last 1000 entries of that session's append history (so the
oldest entries are evicted first and the buffer stays in append order),
the buffer never exceeds 1000 entries, every appended entry is broadcast
to the session's room in order, and immediately after its call each
appended entry is the newest stored entry of its session. -/
theorem claim_C8_logToSession_buffer_and_broadcast (calls : List LogCall) (sid : String) :
    sessionLogs (runLog ServerState.init calls) sid = jsSliceLast (historyFor calls sid) 1000 ∧
    (sessionLogs (runLog ServerState.init calls) sid).length ≤ 1000 ∧
    (runLog ServerState.init calls).emitted = calls.map (fun c => (c.sessionId, c.entry)) ∧
    (∀ pre c post, calls = pre ++ c :: post →
      (sessionLogs (runLog ServerState.init (pre ++ [c])) c.sessionId).getLast? = some c.entry) := by
  have hbase : ∀ s, sessionLogs ServerState.init s = jsSliceLast [] 1000 := by
    intro s; simp [sessionLogs, ServerState.init, lookupSession, jsSliceLast]
  have hmain : ∀ (cs : List LogCall) (s : String),
      sessionLogs (runLog ServerState.init cs) s = jsSliceLast (historyFor cs s) 1000 := by
    intro cs s
    simpa using runLog_invariant cs ServerState.init s [] (hbase s)
  refine ⟨hmain calls sid, ?_, ?_, ?_⟩
  · rw [hmain]
    simp only [jsSliceLast, List.length_drop]
    omega
  · simpa using runLog_emitted calls ServerState.init
  · intro pre c post hsplit
    rw [hmain (pre ++ [c]) c.sessionId]
    have : historyFor (pre ++ [c]) c.sessionId = historyFor pre c.sessionId ++ [c.entry] := by
      simp [historyFor]
    rw [this, jsSliceLast_concat_getLast]

/-! ## Sync Engine (server.js `syncCapacitorWithFallback`)

The function races a `setTimeout` timer against the `close`/`error` events
of the spawned `npx cap sync` child.  The embedding replays the Node event
loop explicitly: a run is a fold of the three possible callbacks over the
order in which the event loop fires them.  In the hang scenario the real
loop delivers `timeoutFires` first and then, because the timeout handler
SIGKILLs the child, a `closeEvt` with a `null` exit code. -/

inductive SyncEvent where
  | timeoutFires
  | closeEvt (code : Option Int)
  | errorEvt (msg : String)
deriving Repr, DecidableEq

deriving instance DecidableEq for Except

structure SyncRun where
  /-- `clearTimeout` has been called (close/error handlers do this). -/
  timeoutCleared : Bool := false
  /-- the timeout callback has already run (a timer fires at most once). -/
  timeoutFired : Bool := false
  /-- `capSync.kill('SIGKILL')` has been issued. -/
  killIssued : Bool := false
  /-- number of invocations of `performManualSync` (the fallback copy). -/
  fallbackRuns : Nat := 0
  /-- the settled state of the promise (`none` while pending); a promise
  settles only once, later `resolve`/`reject` calls are no-ops. -/
  outcome : Option (Except String Unit) := none
deriving Repr, DecidableEq

/-- A promise settles only on the first `resolve`/`reject`. -/
def SyncRun.settle (st : SyncRun) (r : Except String Unit) : SyncRun :=
  if st.outcome.isSome then st else { st with outcome := some r }

/-- `performManualSync`: run the fallback copy once more and settle —
resolve when the filesystem copies succeed (`fsOk`), reject otherwise. -/
def performManualSync (fsOk : Bool) (st : SyncRun) : SyncRun :=
  let st := { st with fallbackRuns := st.fallbackRuns + 1 }
  st.settle (if fsOk then .ok () else .error "Manual Capacitor sync failed")

/-- One event-loop callback of `syncCapacitorWithFallback`. -/
def syncStep (fsOk : Bool) (st : SyncRun) (e : SyncEvent) : SyncRun :=
  match e with
  | .timeoutFires =>
    if st.timeoutCleared || st.timeoutFired then st
    else
      let st := { st with timeoutFired := true }
      let st := if st.killIssued then st else { st with killIssued := true }
      performManualSync fsOk st
  | .closeEvt code =>
    let st := { st with timeoutCleared := true }
    if code = some 0 then st.settle (.ok ()) else performManualSync fsOk st
  | .errorEvt _ =>
    let st := { st with timeoutCleared := true }
    performManualSync fsOk st

/-- A whole run of `syncCapacitorWithFallback` under a given event-loop
schedule. -/
def syncCapacitorWithFallback (fsOk : Bool) (events : List SyncEvent) : SyncRun :=
  events.foldl (syncStep fsOk) {}

/-- The event schedule of the hang scenario: the child never exits before
the timer, so the timeout fires first; the SIGKILL then makes the child's
`close` event fire with a `null` code. -/
def hangSchedule : List SyncEvent := [.timeoutFires, .closeEvt none]

/-- C1 counterexample: in the hang scenario the fallback copy runs TWICE —
once from the timeout handler and once more from the `close` handler that
fires after the SIGKILL (that handler sees a non-zero `null` code and
calls `performManualSync` again) — refuting "exactly once".  The process
is, as claimed, killed. -/
theorem claim_C1_counterexample :
    (syncCapacitorWithFallback true hangSchedule).fallbackRuns = 2 ∧
    (syncCapacitorWithFallback true hangSchedule).killIssued = true ∧
    ¬ ((syncCapacitorWithFallback true hangSchedule).fallbackRuns = 1) := by
  decide

/-- C1 (amended): when the sync child never exits before the timeout (the
timer fires first, then the killed child's `close` event arrives with a
non-zero or null code), the sync tool process is forcibly killed, the
manual fallback copy is performed exactly twice (not once), and the
promise settles — with success whenever the fallback copies succeed. -/
theorem claim_C1_amended_timeout_kills_and_double_fallback
    (fsOk : Bool) (code : Option Int) (hcode : code ≠ some 0) :
    (syncCapacitorWithFallback fsOk [.timeoutFires, .closeEvt code]).killIssued = true ∧
    (syncCapacitorWithFallback fsOk [.timeoutFires, .closeEvt code]).fallbackRuns = 2 ∧
    (syncCapacitorWithFallback fsOk [.timeoutFires, .closeEvt code]).outcome =
      some (if fsOk then .ok () else .error "Manual Capacitor sync failed") := by
  cases fsOk <;>
    simp [syncCapacitorWithFallback, syncStep, performManualSync, SyncRun.settle, hcode]

/-- Witness for the amended C1 theorem at the concrete hang schedule. -/
theorem claim_C1_amended_witness :
    (syncCapacitorWithFallback true hangSchedule).killIssued = true ∧
    (syncCapacitorWithFallback true hangSchedule).fallbackRuns = 2 ∧
    (syncCapacitorWithFallback true hangSchedule).outcome = some (.ok ()) := by
  have h := claim_C1_amended_timeout_kills_and_double_fallback true none (by decide)
  simpa [hangSchedule] using h

/-! ## Keystore Manager (server.js `generateKeystore`) -/

def exIsOk : Except ε α → Bool
  | .ok _ => true
  | .error _ => false

structure KeystoreInfo where
  keystoreFile : String
  keystorePassword : String
  keyAlias : String
  keyPassword : String
  packageName : String
  appName : String
  generatedAt : String
deriving Repr, DecidableEq

/-- Filesystem/process effects of `generateKeystore`, in program order. -/
inductive KsEffect where
  | writeInfoFile (path : String) (info : KeystoreInfo)
  | spawnKeytool (args : List String)
deriving Repr, DecidableEq

/-- Worker for the `.replace(/\s+/g, ' ')` collapse: the flag records
whether the previous character belonged to a whitespace run. -/
def collapseSpacesAux : Bool → List Char → List Char
  | _, [] => []
  | prevWs, c :: rest =>
    if isJsSpace c then
      (if prevWs then [] else [' ']) ++ collapseSpacesAux true rest
    else c :: collapseSpacesAux false rest

def jsTrim (l : List Char) : List Char :=
  ((l.dropWhile isJsSpace).reverse.dropWhile isJsSpace).reverse

/-- The `cleanAppName` computation of `generateKeystore`:
`appName.replace(/[^a-zA-Z0-9\s]/g, '').replace(/\s+/g, ' ').trim() || 'MyApp'`. -/
def jsCleanAppName (appName : String) : String :=
  let kept := appName.data.filter (fun c => isAlnumChar c || isJsSpace c)
  let trimmed := jsTrim (collapseSpacesAux false kept)
  if trimmed = [] then "MyApp" else .mk trimmed

/-- Embedding of `generateKeystore`.  `password` is the
`crypto.randomBytes(16).toString('hex')` credential and `now` the ISO
timestamp the environment supplied; `genCode`/`verifyCode` are the exit
codes of the two keytool child processes and `genOutput`/`verifyOutput`
their captured output.  Returns the effect trace in program order and the
settled promise. -/
def generateKeystore (appDir packageName appName password now : String)
    (genCode verifyCode : Option Int) (genOutput verifyOutput : String) :
    List KsEffect × Except String KeystoreInfo :=
  let keystorePath := appDir ++ "/android/app/release-key.keystore"
  let info : KeystoreInfo :=
    { keystoreFile := "release-key.keystore", keystorePassword := password,
      keyAlias := "release-key", keyPassword := password, packageName := packageName,
      appName := appName, generatedAt := now }
  let keystoreInfoPath := appDir ++ "/keystore-info.json"
  let cleanAppName := jsCleanAppName appName
  let keytoolArgs : List String :=
    ["-genkeypair", "-v", "-keystore", keystorePath, "-alias", "release-key",
     "-keyalg", "RSA", "-keysize", "2048", "-validity", "10000",
     "-storepass", password, "-keypass", password, "-storetype", "PKCS12",
     "-dname", "CN=" ++ cleanAppName ++ ", OU=Mobile Development, O=" ++ cleanAppName ++
       ", L=City, S=State, C=US"]
  let fx0 := [KsEffect.writeInfoFile keystoreInfoPath info, KsEffect.spawnKeytool keytoolArgs]
  if genCode ≠ some 0 then
    (fx0, .error ("Keystore generation failed: " ++ genOutput))
  else
    let verifyArgs : List String :=
      ["-list", "-v", "-keystore", keystorePath, "-storepass", password]
    let fx1 := fx0 ++ [KsEffect.spawnKeytool verifyArgs]
    if verifyCode ≠ some 0 then
      (fx1, .error ("Keystore verification failed: " ++ verifyOutput))
    else
      (fx1, .ok info)

/-- C3: after the generation tool exits zero, a keystore-listing
verification is spawned with the same keystore path and password; the
stage resolves with the KeystoreInfo exactly when both processes exit
zero, and rejects otherwise. -/
theorem claim_C3_generateKeystore_verifies_and_fails_hard
    (appDir packageName appName password now genOutput verifyOutput : String)
    (genCode verifyCode : Option Int) :
    (genCode = some 0 →
      (generateKeystore appDir packageName appName password now
          genCode verifyCode genOutput verifyOutput).1.getLast? =
        some (.spawnKeytool ["-list", "-v", "-keystore",
          appDir ++ "/android/app/release-key.keystore", "-storepass", password])) ∧
    (exIsOk (generateKeystore appDir packageName appName password now
        genCode verifyCode genOutput verifyOutput).2 = true ↔
      (genCode = some 0 ∧ verifyCode = some 0)) ∧
    (genCode = some 0 → verifyCode = some 0 →
      (generateKeystore appDir packageName appName password now
          genCode verifyCode genOutput verifyOutput).2 =
        .ok { keystoreFile := "release-key.keystore", keystorePassword := password,
              keyAlias := "release-key", keyPassword := password,
              packageName := packageName, appName := appName, generatedAt := now }) := by
  by_cases hg : genCode = some 0 <;> by_cases hv : verifyCode = some 0 <;>
    simp [generateKeystore, exIsOk, hg, hv]

/-- C9: `generateKeystore` writes the keystore-info.json sidecar, holding
the freshly generated password, as its very first effect — before any
keytool process is spawned — so the sidecar exists in the Workspace even
when the stage later rejects. -/
theorem claim_C9_keystore_sidecar_written_before_spawn
    (appDir packageName appName password now genOutput verifyOutput : String)
    (genCode verifyCode : Option Int) :
    ((generateKeystore appDir packageName appName password now
        genCode verifyCode genOutput verifyOutput).1.head? =
      some (.writeInfoFile (appDir ++ "/keystore-info.json")
        { keystoreFile := "release-key.keystore", keystorePassword := password,
          keyAlias := "release-key", keyPassword := password,
          packageName := packageName, appName := appName, generatedAt := now })) ∧
    (∃ args, ((generateKeystore appDir packageName appName password now
        genCode verifyCode genOutput verifyOutput).1.drop 1).head? =
      some (.spawnKeytool args)) := by
  by_cases hg : genCode = some 0 <;> by_cases hv : verifyCode = some 0 <;>
    simp [generateKeystore, hg, hv]

/-! ## Build-and-sync driver (server.js `buildAndSyncApp`)

The npm install / npm build / asset generation exit codes and the settled
results of the sync, smoke-test and Play-Store-build promises are the
inputs; the value is the settled result of `buildAndSyncApp` itself. -/

def buildAndSyncApp (installCode buildCode assetsCode : Option Int)
    (syncResult testResult playResult : Except String Unit) : Except String Unit :=
  if installCode ≠ some 0 then .error "Failed to install dependencies"
  else if buildCode ≠ some 0 then .error "Failed to build app"
  else
    -- a nonzero assetsCode only logs "Asset generation failed, continuing"
    match syncResult with
    | .error _ => .ok ()   -- sync failure (fallback included) is caught and resolved
    | .ok () =>
      match testResult with
      | .ok () =>
        match playResult with
        | .ok () => .ok ()
        | .error _ => .ok ()   -- Play-Store build failure is caught and resolved
      | .error _ =>
        match playResult with
        | .ok () => .ok ()
        | .error _ => .ok ()   -- test failure: builds still attempted, then resolve

/-- C10: `buildAndSyncApp` rejects exactly when npm install or npm build
exits nonzero — with the corresponding message — and resolves for every
other combination of stage outcomes (asset generation, sync, smoke test
and Play-Store builds included). -/
theorem claim_C10_buildAndSyncApp_rejects_only_install_or_build
    (installCode buildCode assetsCode : Option Int)
    (syncResult testResult playResult : Except String Unit) :
    (buildAndSyncApp installCode buildCode assetsCode syncResult testResult playResult = .ok () ↔
      (installCode = some 0 ∧ buildCode = some 0)) ∧
    (installCode ≠ some 0 →
      buildAndSyncApp installCode buildCode assetsCode syncResult testResult playResult =
        .error "Failed to install dependencies") ∧
    (installCode = some 0 → buildCode ≠ some 0 →
      buildAndSyncApp installCode buildCode assetsCode syncResult testResult playResult =
        .error "Failed to build app") := by
  by_cases hi : installCode = some 0 <;> by_cases hb : buildCode = some 0 <;>
    rcases syncResult with _ | _ <;> rcases testResult with _ | _ <;>
    rcases playResult with _ | _ <;>
    simp [buildAndSyncApp, hi, hb]

/-! ## Release Build Driver (server.js `generateReleaseBuilds`) -/

structure BuildResults where
  apk : Option String := none
  aab : Option String := none
  debug : Option String := none
deriving Repr, DecidableEq

/-- Which copy statement of `generateReleaseBuilds` placed a file into the
flat `apks/` artifact directory. -/
inductive ArtifactKind where
  | releaseApk
  | aab
  | debugApk
deriving Repr, DecidableEq

def exitCodeStr : Option Int → String
  | some n => toString n
  | none => "null"

/-- Embedding of `generateReleaseBuilds`.  The exit codes of the four
gradle child processes (`clean`, `assembleRelease`, `bundleRelease`,
`assembleDebug`) and the relevant build-output directory listings are the
inputs.  Returns the settled promise together with the list of artifact
copies made into the flat `apks/` directory, in program order.  A nonzero
clean exit only logs a warning; a nonzero `assembleRelease` exit rejects
the stage; a nonzero `bundleRelease` or `assembleDebug` exit merely skips
that artifact. -/
def generateReleaseBuilds (appName : String)
    (cleanCode apkCode aabCode debugCode : Option Int)
    (apkDirExists : Bool) (apkDirFiles : List String)
    (aabDirExists : Bool) (aabDirFiles : List String)
    (debugDirExists : Bool) (debugDirFiles : List String) :
    Except String BuildResults × List (ArtifactKind × String) :=
  if apkCode ≠ some 0 then
    (.error ("Release build failed with exit code: " ++ exitCodeStr apkCode ++
      ". Check logs above for details."), [])
  else
    let cleanAppName := jsSanitize appName
    let apkArt : Option String :=
      if apkDirExists ∧ apkDirFiles.filter (fun f => strEndsWith f ".apk") ≠ [] then
        some (cleanAppName ++ "-release.apk")
      else none
    let aabArt : Option String :=
      if aabCode = some 0 ∧ aabDirExists ∧ aabDirFiles.filter (fun f => strEndsWith f ".aab") ≠ [] then
        some (cleanAppName ++ "-release.aab")
      else none
    let debugArt : Option String :=
      if debugCode = some 0 ∧ debugDirExists ∧ debugDirFiles.filter (fun f => strEndsWith f ".apk") ≠ [] then
        some (cleanAppName ++ "-debug.apk")
      else none
    let copies :=
      (match apkArt with | some n => [(ArtifactKind.releaseApk, n)] | none => []) ++
      (match aabArt with | some n => [(ArtifactKind.aab, n)] | none => []) ++
      (match debugArt with | some n => [(ArtifactKind.debugApk, n)] | none => [])
    (.ok { apk := apkArt, aab := aabArt, debug := debugArt }, copies)

/-- C2: when release-APK assembly exits zero and bundle (AAB) assembly
exits nonzero, the driver still resolves, the BuildResults report the
release APK artifact filename, the `aab` field is `null`, and no AAB copy
is made into the flat artifact directory. -/
theorem claim_C2_generateReleaseBuilds_tolerates_aab_failure
    (appName : String) (cleanCode apkCode aabCode debugCode : Option Int)
    (apkDirExists : Bool) (apkDirFiles : List String)
    (aabDirExists : Bool) (aabDirFiles : List String)
    (debugDirExists : Bool) (debugDirFiles : List String)
    (hapk : apkCode = some 0) (haab : aabCode ≠ some 0)
    (hdir : apkDirExists = true)
    (hfiles : apkDirFiles.filter (fun f => strEndsWith f ".apk") ≠ []) :
    ∃ r : BuildResults,
      (generateReleaseBuilds appName cleanCode apkCode aabCode debugCode
        apkDirExists apkDirFiles aabDirExists aabDirFiles
        debugDirExists debugDirFiles).1 = .ok r ∧
      r.apk = some (jsSanitize appName ++ "-release.apk") ∧
      r.aab = none ∧
      (∀ n, (ArtifactKind.aab, n) ∉
        (generateReleaseBuilds appName cleanCode apkCode aabCode debugCode
          apkDirExists apkDirFiles aabDirExists aabDirFiles
          debugDirExists debugDirFiles).2) := by
  by_cases hd : debugCode = some 0 ∧ debugDirExists = true ∧
      debugDirFiles.filter (fun f => strEndsWith f ".apk") ≠ []
  · refine ⟨(⟨some (jsSanitize appName ++ "-release.apk"), none,
        some (jsSanitize appName ++ "-debug.apk")⟩ : BuildResults), ?_, rfl, rfl, ?_⟩
    · simp [generateReleaseBuilds, hapk, haab, hdir, hfiles, hd]
    · intro n
      simp [generateReleaseBuilds, hapk, haab, hdir, hfiles, hd]
  · have hdx : ¬ (debugCode = some 0 ∧ debugDirExists = true ∧
        ∃ x ∈ debugDirFiles, strEndsWith x ".apk" = true) := by
      rintro ⟨h1, h2, x, hx, hpx⟩
      exact hd ⟨h1, h2, List.ne_nil_of_mem (List.mem_filter.mpr ⟨hx, hpx⟩)⟩
    refine ⟨(⟨some (jsSanitize appName ++ "-release.apk"), none, none⟩ : BuildResults),
        ?_, rfl, rfl, ?_⟩
    · simp [generateReleaseBuilds, hapk, haab, hdir, hfiles]
      intro h1 h2
      by_contra hex
      push_neg at hex
      obtain ⟨x, hx, hpx⟩ := hex
      exact hdx ⟨h1, h2, x, hx, by simpa using hpx⟩
    · intro n
      simp [generateReleaseBuilds, hapk, haab, hdir, hfiles]
      rw [if_neg hdx]
      simp

/-- Witness for C2 at concrete inputs: release APK assembly succeeds,
bundle assembly exits 1. -/
theorem claim_C2_witness :
    ∃ r : BuildResults,
      (generateReleaseBuilds "MyStore" (some 0) (some 0) (some 1) (some 0)
        true ["app-release.apk"] true [] true ["app-debug.apk"]).1 = .ok r ∧
      r.apk = some (jsSanitize "MyStore" ++ "-release.apk") ∧
      r.aab = none ∧
      (∀ n, (ArtifactKind.aab, n) ∉
        (generateReleaseBuilds "MyStore" (some 0) (some 0) (some 1) (some 0)
          true ["app-release.apk"] true [] true ["app-debug.apk"]).2) :=
  claim_C2_generateReleaseBuilds_tolerates_aab_failure "MyStore" (some 0) (some 0) (some 1)
    (some 0) true ["app-release.apk"] true [] true ["app-debug.apk"]
    rfl (by decide) rfl (by decide)

/-! ## Pipeline Orchestrator entry point (server.js
`app.post('/api/generate-app')`) -/

/-- The JSON body (plus HTTP status) of the `/api/generate-app` response. -/
structure GenerateResponse where
  status : Nat
  success : Bool
  message : String
  error : Option String := none
  appId : Option String := none
  sessionId : Option String := none
  downloadUrl : Option String := none
  apkDownloadUrl : Option String := none
  releaseApkDownloadUrl : Option String := none
  aabDownloadUrl : Option String := none
  guideUrl : Option String := none
deriving Repr, DecidableEq

/-- Embedding of the `/api/generate-app` handler.  `copyOk` stands for the
directory-creation/template-copy/line-ending/README steps completing
without a thrown error, `configOk` for `updateAppConfig` completing;
either failing lands in the outer catch (HTTP 500).  `buildOutcome` is the
settled result of `buildAndSyncApp`, whose rejection is caught and only
logged. -/
def generateAppHandler (appName websiteUrl packageName sessionId appId : String)
    (copyOk configOk : Bool) (buildOutcome : Except String Unit) : GenerateResponse :=
  let av := validateAppName appName
  if av.isValid = false then
    { status := 400, success := false, message := av.message.getD "",
      error := some "Invalid app name", sessionId := some sessionId }
  else
    let uv := validateWebsiteUrl websiteUrl
    if uv.isValid = false then
      { status := 400, success := false, message := uv.message.getD "",
        error := some "Invalid website URL", sessionId := some sessionId }
    else
      let pv := validatePackageName packageName
      if pv.isValid = false then
        { status := 400, success := false, message := pv.message.getD "",
          error := some "Invalid package name", sessionId := some sessionId }
      else if copyOk = false ∨ configOk = false then
        -- a throw before/inside updateAppConfig reaches the outer catch
        { status := 500, success := false, message := "Failed to generate app" }
      else
        -- buildAndSyncApp is awaited inside try/catch: its rejection only logs
        match buildOutcome with
        | _ =>
          { status := 200, success := true,
            message := "Play Store-ready app generated successfully!",
            appId := some appId, sessionId := some sessionId,
            downloadUrl := some ("/api/download/" ++ appId),
            apkDownloadUrl := some ("/api/download-apk/" ++ appId),
            releaseApkDownloadUrl := some ("/api/download-release-apk/" ++ appId),
            aabDownloadUrl := some ("/api/download-aab/" ++ appId),
            guideUrl := some ("/api/download-guide/" ++ appId) }

/-- C4: once the three validators accept and the workspace is materialized
(template copy and config patch complete), the response is `success: true`
with the appId and all download URLs — for EVERY outcome of the
build-and-sync phase, including rejection. -/
theorem claim_C4_success_response_survives_build_failure
    (appName websiteUrl packageName sessionId appId : String)
    (buildOutcome : Except String Unit)
    (ha : (validateAppName appName).isValid = true)
    (hu : (validateWebsiteUrl websiteUrl).isValid = true)
    (hp : (validatePackageName packageName).isValid = true) :
    generateAppHandler appName websiteUrl packageName sessionId appId true true buildOutcome =
      { status := 200, success := true,
        message := "Play Store-ready app generated successfully!",
        appId := some appId, sessionId := some sessionId,
        downloadUrl := some ("/api/download/" ++ appId),
        apkDownloadUrl := some ("/api/download-apk/" ++ appId),
        releaseApkDownloadUrl := some ("/api/download-release-apk/" ++ appId),
        aabDownloadUrl := some ("/api/download-aab/" ++ appId),
        guideUrl := some ("/api/download-guide/" ++ appId) } := by
  unfold generateAppHandler
  rw [if_neg (by rw [ha]; exact fun h => Bool.true_eq_false.mp h),
    if_neg (by rw [hu]; exact fun h => Bool.true_eq_false.mp h),
    if_neg (by rw [hp]; exact fun h => Bool.true_eq_false.mp h),
    if_neg (by simp)]

/-- Witness for C4: a fully valid request whose build-and-sync phase
rejects still gets the success response. -/
theorem claim_C4_witness :
    generateAppHandler "MyStore" "https://mystoreapp.com" "com.mystore.app" "sess-1" "app-1"
        true true (.error "Failed to install dependencies") =
      { status := 200, success := true,
        message := "Play Store-ready app generated successfully!",
        appId := some "app-1", sessionId := some "sess-1",
        downloadUrl := some "/api/download/app-1",
        apkDownloadUrl := some "/api/download-apk/app-1",
        releaseApkDownloadUrl := some "/api/download-release-apk/app-1",
        aabDownloadUrl := some "/api/download-aab/app-1",
        guideUrl := some "/api/download-guide/app-1" } := by
  have h := claim_C4_success_response_survives_build_failure
    "MyStore" "https://mystoreapp.com" "com.mystore.app" "sess-1" "app-1"
    (.error "Failed to install dependencies") (by decide) (by decide) (by decide)
  simpa using h

/-! ## Template Materializer patch step (server.js `updateAppConfig` and
`updateNetworkSecurityConfig`)

File contents are strings; the two JSON configs touched through
`readJson`/`writeJson` are modelled as their parsed form (a `name` field
plus the untouched remainder), since `writeJson` serialises
deterministically.  Apostrophes, double quotes and curly braces inside the
transplanted JavaScript literals are written as `\x27`, `\x22`, `\x7b`,
`\x7d`. -/

structure JsonDoc where
  name : String
  rest : List (String × String) := []
deriving Repr, DecidableEq

/-- The files `updateAppConfig` reads from the template directory
(everything else it touches lives in the freshly copied Workspace). -/
structure TemplateDir where
  mainActivity : Option String := none
  firebaseService : Option String := none
  notificationHelper : Option String := none
  googleServicesJson : Option String := none
deriving Repr, DecidableEq

/-- The Workspace files `updateAppConfig` reads or writes.  `none` means
the file does not exist.  `mainActivityDir` is the package-parts path of
the Java directory `fs.ensureDir` creates. -/
structure Workspace where
  capacitorConfigTs : Option String := none
  packageJson : Option JsonDoc := none
  ionicConfigJson : Option JsonDoc := none
  indexHtml : Option String := none
  stringsXml : Option String := none
  buildGradle : Option String := none
  oldMainActivity : Option String := none
  mainActivityDir : Option (List String) := none
  mainActivity : Option String := none
  oldFirebaseService : Option String := none
  firebaseService : Option String := none
  oldNotificationHelper : Option String := none
  notificationHelper : Option String := none
  googleServicesJson : Option String := none
  appComponentTs : Option String := none
  pushServiceTs : Option String := none
  srcSwJs : Option String := none
  assetsSwJs : Option String := none
  networkSecurityConfig : Option String := none
  resourcesIcon : Option String := none
  resourcesSplash : Option String := none
deriving Repr, DecidableEq

/-- The config argument of `updateAppConfig`; `logo`/`splash` hold the
uploaded file contents when present. -/
structure AppConfigInput where
  appName : String
  websiteUrl : String
  packageName : String
  logo : Option String := none
  splash : Option String := none
deriving Repr, DecidableEq

def urlHostname (url : String) : Option String :=
  (urlParse url).map URLParts.hostname

/-- The `appId`/`appName` rewrites of capacitor.config.ts. -/
def capacitorAfterIds (c : String) (cfg : AppConfigInput) : String :=
  let c1 := jsReplaceSegment c "appId: \x27" "\x27" ("appId: \x27" ++ cfg.packageName ++ "\x27")
  jsReplaceSegment c1 "appName: \x27" "\x27" ("appName: \x27" ++ cfg.appName ++ "\x27")

/-- Whether the asset-plugin block gets inserted. -/
def capacitorAddsAssets (c : String) (cfg : AppConfigInput) : Bool :=
  (cfg.logo.isSome || cfg.splash.isSome) && !(containsStr (capacitorAfterIds c cfg) "CapacitorAssets")

/-- The replacement text for `webDir: '...'` when the asset block is
added. -/
def capacitorAssetsBlock : String :=
  "webDir: \x27www\x27,\n  plugins: \x7b\n    CapacitorAssets: \x7b\n      iconPath: \x27resources/icon.png\x27,\n      splashPath: \x27resources/splash.png\x27,\n    \x7d\n  \x7d"

def patchCapacitorConfig (c : String) (cfg : AppConfigInput) : String :=
  let c2 := capacitorAfterIds c cfg
  if capacitorAddsAssets c cfg then
    jsReplaceSegment c2 "webDir: \x27" "\x27" capacitorAssetsBlock
  else c2

def patchIndexHtml (c appName : String) : String :=
  jsReplaceSegment c "<title>" "</title>" ("<title>" ++ appName ++ "</title>")

def patchStringsXml (c appName packageName : String) : String :=
  let c1 := jsReplaceSegment c "<string name=\x22app_name\x22>" "</string>"
    ("<string name=\x22app_name\x22>" ++ appName ++ "</string>")
  let c2 := jsReplaceSegment c1 "<string name=\x22title_activity_main\x22>" "</string>"
    ("<string name=\x22title_activity_main\x22>" ++ appName ++ "</string>")
  let c3 := jsReplaceSegment c2 "<string name=\x22package_name\x22>" "</string>"
    ("<string name=\x22package_name\x22>" ++ packageName ++ "</string>")
  let c4 := jsReplaceSegment c3 "<string name=\x22custom_url_scheme\x22>" "</string>"
    ("<string name=\x22custom_url_scheme\x22>" ++ packageName ++ "</string>")
  let c5 := jsReplaceAll c4 "\x7b\x7bAPP_NAME\x7d\x7d" appName
  jsReplaceAll c5 "\x7b\x7bPACKAGE_NAME\x7d\x7d" packageName

def patchBuildGradle (c packageName : String) : String :=
  let c1 := jsReplaceSegment c "namespace \x22" "\x22" ("namespace \x22" ++ packageName ++ "\x22")
  let c2 := jsReplaceSegment c1 "applicationId \x22" "\x22" ("applicationId \x22" ++ packageName ++ "\x22")
  jsReplaceAll c2 "\x7b\x7bPACKAGE_NAME\x7d\x7d" packageName

/-- `content.replace(/package .*?;/, 'package <pkg>;')`. -/
def patchPackageDecl (c packageName : String) : String :=
  jsReplaceSegment c "package " ";" ("package " ++ packageName ++ ";")

def patchFirebaseConfig (c packageName : String) : String :=
  jsReplaceAll c "\x22package_name\x22: \x22com.ezassist.timeless\x22"
    ("\x22package_name\x22: \x22" ++ packageName ++ "\x22")

def patchAppComponent (c : String) (cfg : AppConfigInput) : String :=
  let c1 := jsReplaceSegment c "websiteUrl = \x27" "\x27"
    ("websiteUrl = \x27" ++ cfg.websiteUrl ++ "\x27")
  let c2 := jsReplaceAll c1 "Timeless app" (cfg.appName ++ " app")
  jsReplaceAll c2 "timeless-updates" (jsSanitize cfg.appName ++ "-updates")

def patchPushService (c appName : String) : String :=
  let c1 := jsReplaceAll c "timeless-user" (jsSanitize appName ++ "-user")
  jsReplaceAll c1 "appName: \x27Timeless\x27" ("appName: \x27" ++ appName ++ "\x27")

def patchServiceWorker (c appName websiteUrl domain : String) : String :=
  let c1 := jsReplaceAll c "timeless-cache" (jsSanitize appName ++ "-cache")
  let c2 := jsReplaceAll c1 "http://timeless.ezassist.me" websiteUrl
  jsReplaceAll c2 "timeless.ezassist.me" domain

/-- The regex replace
`/(<domain-config cleartextTrafficPermitted="true">\s*)/` → `$1entry\n`:
keep the tag and its trailing whitespace run, then insert. -/
def insertAfterTagWs (content tag insert : String) : String :=
  match firstMatch tag.data content.data with
  | none => content
  | some (pre, post) =>
    .mk (pre ++ tag.data ++ post.takeWhile isJsSpace ++ insert.data ++ post.dropWhile isJsSpace)

def patchNetworkSecurityConfig (c domain : String) : String :=
  let domainTag := "<domain includeSubdomains=\x22true\x22>" ++ domain ++ "</domain>"
  if containsStr c domainTag then c
  else
    let domainEntry := "        " ++ domainTag
    if containsStr c "<domain-config cleartextTrafficPermitted=\x22true\x22>" then
      insertAfterTagWs c "<domain-config cleartextTrafficPermitted=\x22true\x22>" (domainEntry ++ "\n")
    else
      jsReplaceFirst c "</network-security-config>"
        ("\n    <domain-config cleartextTrafficPermitted=\x22true\x22>\n        " ++ domainEntry ++
          "\n    </domain-config>\n</network-security-config>")

/-- Template-first content selection used for MainActivity.java,
MyFirebaseMessagingService.java and NotificationPermissionHelper.java:
prefer the template's copy, fall back to the file already in the
Workspace, else the empty string (in which case nothing is written). -/
def pickContent (tplContent oldContent : Option String) : String :=
  match tplContent with
  | some t => t
  | none =>
    match oldContent with
    | some o => o
    | none => ""

/-- Builds the `LogEntry` values for the messages `logToSession` receives,
consuming the environment's timestamp/uuid supply in order. -/
def buildEntries (env : Nat → String × String) : Nat → List (String × String) → List LogEntry
  | _, [] => []
  | k, (m, ty) :: rest =>
    { timestamp := (env k).1, message := m, type := ty, id := (env k).2 } ::
      buildEntries env (k + 1) rest

/-- Embedding of `updateAppConfig` (the session-log messages are kept
without their emoji prefixes).  `env k` is the `(toISOString, uuidv4)`
pair the runtime produces for the k-th log call.  The `new URL` at the
service-worker/network-security steps is the parser modelled by
`urlParse`; the handler validates the URL before this function runs, so
the constructor-throw path is outside the modelled runs (and the
network-security step catches it in any case). -/
def updateAppConfig (ws : Workspace) (tpl : TemplateDir) (cfg : AppConfigInput)
    (sessionId : Option String) (env : Nat → String × String) : Workspace × List LogEntry :=
  let pkg := cfg.packageName
  let appName := cfg.appName
  let domain := (urlHostname cfg.websiteUrl).getD ""
  let maContent := pickContent tpl.mainActivity ws.oldMainActivity
  let fbContent := pickContent tpl.firebaseService ws.oldFirebaseService
  let nhContent := pickContent tpl.notificationHelper ws.oldNotificationHelper
  let msgs : List (String × String) :=
    if sessionId.isSome then
      [("Updating capacitor configuration...", "info")] ++
      (match ws.capacitorConfigTs with
       | some c =>
         [("Updating Capacitor configuration...", "info")] ++
         (if capacitorAddsAssets c cfg then [("Adding asset configuration...", "info")] else []) ++
         [("Capacitor configuration updated", "success")]
       | none => []) ++
      [("Updating package.json...", "info")]
    else []
  ({ capacitorConfigTs := ws.capacitorConfigTs.map (fun c => patchCapacitorConfig c cfg),
     packageJson := ws.packageJson.map (fun j => { j with name := jsSanitize appName }),
     ionicConfigJson := ws.ionicConfigJson.map (fun j => { j with name := jsSanitize appName }),
     indexHtml := ws.indexHtml.map (fun c => patchIndexHtml c appName),
     stringsXml := ws.stringsXml.map (fun c => patchStringsXml c appName pkg),
     buildGradle := ws.buildGradle.map (fun c => patchBuildGradle c pkg),
     oldMainActivity := none,
     mainActivityDir := some ((pkg.data.splitOn '.').map String.mk),
     mainActivity := if maContent = "" then ws.mainActivity
       else some (patchPackageDecl maContent pkg),
     oldFirebaseService := none,
     firebaseService := if fbContent = "" then ws.firebaseService
       else some (jsReplaceAll (patchPackageDecl fbContent pkg) "\x7b\x7bPACKAGE_NAME\x7d\x7d" pkg),
     oldNotificationHelper := none,
     notificationHelper := if nhContent = "" then ws.notificationHelper
       else some (jsReplaceAll (patchPackageDecl nhContent pkg) "\x7b\x7bPACKAGE_NAME\x7d\x7d" pkg),
     googleServicesJson :=
       match tpl.googleServicesJson with
       | some t => some (patchFirebaseConfig t pkg)
       | none => ws.googleServicesJson,
     appComponentTs := ws.appComponentTs.map (fun c => patchAppComponent c cfg),
     pushServiceTs := ws.pushServiceTs.map (fun c => patchPushService c appName),
     srcSwJs := ws.srcSwJs.map (fun c => patchServiceWorker c appName cfg.websiteUrl domain),
     assetsSwJs := ws.assetsSwJs.map (fun c => patchServiceWorker c appName cfg.websiteUrl domain),
     networkSecurityConfig :=
       match urlHostname cfg.websiteUrl with
       | none => ws.networkSecurityConfig
       | some d => ws.networkSecurityConfig.map (fun c => patchNetworkSecurityConfig c d),
     resourcesIcon := match cfg.logo with | some content => some content | none => ws.resourcesIcon,
     resourcesSplash := match cfg.splash with | some content => some content | none => ws.resourcesSplash },
   buildEntries env 0 msgs)

/-- C7: the patch step is deterministic — run on equal (byte-identical)
fresh Workspaces with the same appName/websiteUrl/packageName and no
logo/splash, it yields byte-identical patched files whatever timestamps
and uuids the runtime environment produces (the environment only reaches
the session log, never the files). -/
theorem claim_C7_updateAppConfig_deterministic
    (ws1 ws2 : Workspace) (tpl : TemplateDir) (cfg : AppConfigInput)
    (sessionId : Option String) (env1 env2 : Nat → String × String)
    (hws : ws1 = ws2) (hlogo : cfg.logo = none) (hsplash : cfg.splash = none) :
    (updateAppConfig ws1 tpl cfg sessionId env1).1 =
      (updateAppConfig ws2 tpl cfg sessionId env2).1 := by
  subst hws
  rfl

/-- A sample Workspace for the C7 witness, carrying a representative copy
of every patched file. -/
def sampleWorkspace : Workspace :=
  { capacitorConfigTs := some "appId: \x27io.ionic.starter\x27,\nappName: \x27Timeless\x27,\nwebDir: \x27www\x27",
    packageJson := some { name := "timeless", rest := [("version", "1.0.0")] },
    ionicConfigJson := some { name := "timeless" },
    indexHtml := some "<title>Ionic App</title>",
    stringsXml := some "<string name=\x22app_name\x22>Timeless</string>",
    buildGradle := some "namespace \x22io.ionic.starter\x22\napplicationId \x22io.ionic.starter\x22",
    oldMainActivity := some "package io.ionic.starter;\nclass MainActivity \x7b\x7d",
    appComponentTs := some "websiteUrl = \x27http://timeless.ezassist.me\x27",
    pushServiceTs := some "topic: \x27timeless-user\x27",
    srcSwJs := some "cache: \x27timeless-cache\x27 at http://timeless.ezassist.me",
    networkSecurityConfig := some "<network-security-config>\n</network-security-config>" }

def sampleTemplate : TemplateDir :=
  { mainActivity := some "package io.ionic.starter;\nclass MainActivity \x7b\x7d",
    firebaseService := some "package io.ionic.starter;\n// \x7b\x7bPACKAGE_NAME\x7d\x7d",
    googleServicesJson := some "\x22package_name\x22: \x22com.ezassist.timeless\x22" }

def sampleConfig : AppConfigInput :=
  { appName := "MyStore", websiteUrl := "https://mystoreapp.com", packageName := "com.mystore.app" }

/-- Witness for C7 at a concrete Workspace under two different
timestamp/uuid environments. -/
theorem claim_C7_witness :
    (updateAppConfig sampleWorkspace sampleTemplate sampleConfig (some "sess")
        (fun k => (toString k, "uuid-a"))).1 =
      (updateAppConfig sampleWorkspace sampleTemplate sampleConfig (some "sess")
        (fun k => (toString (k + 7), "uuid-b"))).1 :=
  claim_C7_updateAppConfig_deterministic sampleWorkspace sampleWorkspace sampleTemplate
    sampleConfig (some "sess") (fun k => (toString k, "uuid-a"))
    (fun k => (toString (k + 7), "uuid-b")) rfl rfl rfl

end EZGen
